import Mathlib

/-!
Verification development for the poem-proxy forwarding engine
(`src/lib.rs`): a shallow embedding of the `ProxyConfig` builder, of the
`proxy` handler (URI rewriting, dispatch on method and upgrade, HTTP
forwarding with its error mapping), and a small-step model of the
WebSocket relay's two pump tasks with their shared liveness flag.
-/

namespace PoemProxy

/-- Embedding of `ProxyConfig` (src/lib.rs, lines 24-40). -/
structure ProxyConfig where
  proxy_target : String
  web_secure : Bool
  ws_secure : Bool
  support_nesting : Bool
deriving DecidableEq

/-- Embedding of `ProxyConfig::default` (lines 53-58).  Note that the
default target string embeds the scheme `http://`. -/
def ProxyConfig.default : ProxyConfig :=
  { proxy_target := "http://localhost:3000",
    web_secure := false, ws_secure := false, support_nesting := false }

/-- Embedding of `ProxyConfig::new` (lines 68-73): replaces the target,
keeps every other field of the default. -/
def ProxyConfig.new (target : String) : ProxyConfig :=
  { ProxyConfig.default with proxy_target := target }

/-- Embedding of the builder method `ProxyConfig::ws_secure` (lines 77-80),
renamed because the field of the same name exists.  The source body sets
the field to `false`, not `true`. -/
def ProxyConfig.ws_secure_builder (c : ProxyConfig) : ProxyConfig :=
  { c with ws_secure := false }

/-- Embedding of `ProxyConfig::ws_insecure` (lines 86-89). -/
def ProxyConfig.ws_insecure (c : ProxyConfig) : ProxyConfig :=
  { c with ws_secure := false }

/-- Embedding of the builder method `ProxyConfig::web_secure` (lines 94-97),
renamed because the field of the same name exists. -/
def ProxyConfig.web_secure_builder (c : ProxyConfig) : ProxyConfig :=
  { c with web_secure := true }

/-- Embedding of `ProxyConfig::web_insecure` (lines 102-105).  The source
body sets the field to `true`, not `false`. -/
def ProxyConfig.web_insecure (c : ProxyConfig) : ProxyConfig :=
  { c with web_secure := true }

/-- Embedding of `ProxyConfig::enable_nesting` (lines 113-116). -/
def ProxyConfig.enable_nesting (c : ProxyConfig) : ProxyConfig :=
  { c with support_nesting := true }

/-- Embedding of `ProxyConfig::disable_nesting` (lines 124-127). -/
def ProxyConfig.disable_nesting (c : ProxyConfig) : ProxyConfig :=
  { c with support_nesting := false }

/-- Embedding of `ProxyConfig::get_request_uri` (lines 134-137), an unused
stub in the source that returns a fixed string. -/
def ProxyConfig.get_request_uri (_c : ProxyConfig) : String :=
  "Hi there"

/-- Rust `str::replace` semantics: replace each non-overlapping occurrence
of `pat`, scanning left to right.  Structural recursion on a fuel that
starts at the string length; each step consumes at least one character, and
every call site uses a nonempty pattern (an empty pattern is a no-op here). -/
def replaceAllAux : Nat → List Char → List Char → List Char → List Char
  | 0, s, _, _ => s
  | _ + 1, [], _, _ => []
  | fuel + 1, c :: rest, pat, rep =>
    if pat.isPrefixOf (c :: rest) && !pat.isEmpty then
      rep ++ replaceAllAux fuel ((c :: rest).drop pat.length) pat rep
    else
      c :: replaceAllAux fuel rest pat rep

/-- Rust `str::replace` lifted to `String`. -/
def rustReplace (s pat rep : String) : String :=
  ⟨replaceAllAux s.data.length s.data pat.data rep.data⟩

/-- The websocket target rewrite of line 154:
`target.clone().replace( "https", "wss" ).replace( "http", "ws" )`.
It is textual replacement on the `target` handler argument; the
`ProxyConfig` secure flags play no part. -/
def wsTarget (target : String) : String :=
  rustReplace (rustReplace target "https" "wss") "http" "ws"

/-- Inbound HTTP method as dispatched by the handler (lines 226-244): the
source matches `Method::GET`, `Method::POST` and a catch-all. -/
inductive Method
  | GET
  | POST
  | other (name : String)
deriving DecidableEq

/-- The parts of the inbound `poem::Request` that the handler reads:
whether `WebSocket::from_request_without_body` succeeds (line 151),
`req.uri()` rendered as a string (line 221), and `req.headers()`
(lines 229/236). -/
structure InboundRequest where
  isUpgrade : Bool
  uriStr : String
  headers : List (String × String)
deriving DecidableEq

/-- One HTTP request issued to the upstream by `reqwest` (lines 227-240). -/
structure UpstreamCall where
  method : Method
  uri : String
  headers : List (String × String)
  body : List Nat
deriving DecidableEq

/-- A successful upstream response as the handler consumes it
(lines 249-257): status, version, headers, and the result of buffering
the response body (`result.bytes().await`, which can itself fail). -/
structure UpstreamResp where
  status : Nat
  version : Nat
  headers : List (String × String)
  bodyRead : Option (List Nat)
deriving DecidableEq

/-- A failed upstream call (lines 262-264): `error.to_string()` and
`error.status()`. -/
structure UpstreamErr where
  message : String
  statusCode : Option Nat
deriving DecidableEq

/-- The external world the handler interacts with on the plain-HTTP path:
the result of buffering the inbound body (`body.into_bytes().await`,
`none` meaning the read fails) and the upstream's answer to a request. -/
structure World where
  bodyBytes : Option (List Nat)
  answer : UpstreamCall → Except UpstreamErr UpstreamResp

/-- `http::HeaderMap::insert` on the outbound response (line 253): the
value stored under `k` is replaced (duplicates removed), the pair is
keyed. -/
def insertH : List (String × String) → String → String → List (String × String)
  | [], k, v => [(k, v)]
  | p :: m, k, v => if p.1 = k then insertH m k v else p :: insertH m k v

/-- The header map accumulated by the `for_each` over the upstream
response headers (lines 252-254), starting from the empty headers of
`Response::default()`. -/
def buildHeaders (hs : List (String × String)) : List (String × String) :=
  hs.foldl (fun m p => insertH m p.1 p.2) []

/-- The outbound `poem::Response` as assembled on lines 250-257. -/
structure ResponseModel where
  status : Nat
  version : Nat
  headers : List (String × String)
  body : List Nat
deriving DecidableEq

/-- Possible results of the `proxy` handler.  `upgrade` is the
client-facing upgrade response returned by `ws.on_upgrade(..)` (line 163);
`panicked` marks an `unwrap()` of a failed operation. -/
inductive Outcome
  | upgrade (wsUri : String) (wsHeaders : List (String × String))
  | response (r : ResponseModel)
  | error (message : String) (status : Nat)
  | panicked (site : String)
deriving DecidableEq

/-- The handler's result together with its observable external behaviour:
which upstream HTTP calls it issued, and whether the WebSocket relay path
was taken. -/
structure ProxyResult where
  outcome : Outcome
  upstreamCalls : List UpstreamCall
  relayAttempted : Bool
deriving DecidableEq

/-- Embedding of the `proxy` handler (lines 141-267).  The `config`
argument is accepted exactly as in the source — and, exactly as in the
source, never read: the websocket target is a textual rewrite of the
`target` handler argument (line 154), and the plain-HTTP URI is
`target + req.uri()` (line 221) regardless of `support_nesting` or the
secure flags. -/
def proxy (req : InboundRequest) (headers : List (String × String))
    (target : String) (config : ProxyConfig) (method : Method)
    (w : World) : ProxyResult :=
  if req.isUpgrade then
    -- lines 151-214: upgrade path; the handler returns the upgrade
    -- response immediately, the relay session runs in the callback.
    { outcome := .upgrade (wsTarget target) headers,
      upstreamCalls := [], relayAttempted := true }
  else
    -- line 221
    let request_uri := target ++ req.uriStr
    match method with
    | .GET =>
      match w.bodyBytes with
      | none => { outcome := .panicked "body.into_bytes unwrap",
                  upstreamCalls := [], relayAttempted := false }
      | some bs =>
        let call : UpstreamCall :=
          { method := .GET, uri := request_uri, headers := req.headers, body := bs }
        match w.answer call with
        | .ok result =>
          match result.bodyRead with
          | none => { outcome := .panicked "result.bytes unwrap",
                      upstreamCalls := [call], relayAttempted := false }
          | some rb =>
            { outcome := .response
                { status := result.status, version := result.version,
                  headers := buildHeaders result.headers, body := rb },
              upstreamCalls := [call], relayAttempted := false }
        | .error e =>
          { outcome := .error e.message (e.statusCode.getD 502),
            upstreamCalls := [call], relayAttempted := false }
    | .POST =>
      match w.bodyBytes with
      | none => { outcome := .panicked "body.into_bytes unwrap",
                  upstreamCalls := [], relayAttempted := false }
      | some bs =>
        let call : UpstreamCall :=
          { method := .POST, uri := request_uri, headers := req.headers, body := bs }
        match w.answer call with
        | .ok result =>
          match result.bodyRead with
          | none => { outcome := .panicked "result.bytes unwrap",
                      upstreamCalls := [call], relayAttempted := false }
          | some rb =>
            { outcome := .response
                { status := result.status, version := result.version,
                  headers := buildHeaders result.headers, body := rb },
              upstreamCalls := [call], relayAttempted := false }
        | .error e =>
          { outcome := .error e.message (e.statusCode.getD 502),
            upstreamCalls := [call], relayAttempted := false }
    | .other _ =>
      -- lines 241-243
      { outcome := .error "Unsupported Method!" 405,
        upstreamCalls := [], relayAttempted := false }

/-- Specification-side association lookup (first match), used to state
what the keyed header map holds. -/
def lookupH (k : String) : List (String × String) → Option String
  | [] => none
  | p :: rest => if p.1 = k then some p.2 else lookupH k rest

/-- Specification-side helper: the value of the last pair with key `k`
in a header list — the "later duplicates overwrite earlier" reading. -/
def lastVal (k : String) (hs : List (String × String)) : Option String :=
  hs.foldl (fun acc p => if p.1 = k then some p.2 else acc) none

/-- One item produced by a websocket stream: `clientstream.next().await`
yields `Some(Ok(msg))` (`msg`), `Some(Err(..))` (`errItem`), or `None`
(modelled by the list running out with the stream closed). -/
inductive SItem
  | msg (f : Nat)
  | errItem
deriving DecidableEq

/-- Program counter of one pump task (lines 176-193 and 196-212): at the
`next().await`, about to `send` a received frame, at the liveness check
after a successful send, after the `while` loop about to clear the flag,
or finished. -/
inductive PumpPc
  | recv
  | send (f : Nat)
  | check
  | clearing
  | done
deriving DecidableEq

/-- State of one relay session.  `flag` is the single shared
`Arc<RwLock<bool>>` of lines 172-173: `server_live` is
`client_live.clone()`, so both pumps read and clear the very same cell.
`aPc` is the client→upstream pump, `bPc` the upstream→client pump.
`clientIn`/`serverIn` are the frames still to be produced by each
receive stream (`clientClosed`/`serverClosed` say whether the stream
ends after them or stays pending), `aFail`/`bFail` schedule the results
of the sink `send` calls, and `serverOut`/`clientOut` are the frames
actually forwarded. -/
structure RelayState where
  flag : Bool
  aPc : PumpPc
  bPc : PumpPc
  clientIn : List SItem
  clientClosed : Bool
  serverIn : List SItem
  serverClosed : Bool
  aFail : List Bool
  bFail : List Bool
  serverOut : List Nat
  clientOut : List Nat
deriving DecidableEq

/-- The state right after both pumps are spawned (lines 172-212): the
shared flag is initialized to `true`, both pumps sit at their
`next().await`, nothing has been forwarded. -/
def relayInit (clientIn : List SItem) (clientClosed : Bool)
    (serverIn : List SItem) (serverClosed : Bool)
    (aFail bFail : List Bool) : RelayState :=
  { flag := true, aPc := .recv, bPc := .recv,
    clientIn, clientClosed, serverIn, serverClosed,
    aFail, bFail, serverOut := [], clientOut := [] }

/-- Interleaved small-step semantics of the two pump loops.  Pump `a` is
the client→upstream task of lines 176-193; pump `b` is the
upstream→client task of lines 196-212.  Each loop body is: receive
(`while let Some(Ok(msg))`), forward (`send`, breaking on error), then
read the shared flag and break if it is `false`; after the loop the task
writes `false` into the shared flag and terminates. -/
inductive Step : RelayState → RelayState → Prop
  | aRecvMsg (s : RelayState) (f : Nat) (rest : List SItem)
      (h1 : s.aPc = .recv) (h2 : s.clientIn = .msg f :: rest) :
      Step s { s with aPc := .send f, clientIn := rest }
  | aRecvErr (s : RelayState) (rest : List SItem)
      (h1 : s.aPc = .recv) (h2 : s.clientIn = .errItem :: rest) :
      Step s { s with aPc := .clearing, clientIn := rest }
  | aRecvEnd (s : RelayState)
      (h1 : s.aPc = .recv) (h2 : s.clientIn = []) (h3 : s.clientClosed = true) :
      Step s { s with aPc := .clearing }
  | aSendOk (s : RelayState) (f : Nat)
      (h1 : s.aPc = .send f) (h2 : s.aFail.headD false = false) :
      Step s { s with aPc := .check, serverOut := s.serverOut ++ [f],
                      aFail := s.aFail.tail }
  | aSendErr (s : RelayState) (f : Nat)
      (h1 : s.aPc = .send f) (h2 : s.aFail.headD false = true) :
      Step s { s with aPc := .clearing, aFail := s.aFail.tail }
  | aCheckLive (s : RelayState)
      (h1 : s.aPc = .check) (h2 : s.flag = true) :
      Step s { s with aPc := .recv }
  | aCheckStop (s : RelayState)
      (h1 : s.aPc = .check) (h2 : s.flag = false) :
      Step s { s with aPc := .clearing }
  | aClear (s : RelayState)
      (h1 : s.aPc = .clearing) :
      Step s { s with aPc := .done, flag := false }
  | bRecvMsg (s : RelayState) (f : Nat) (rest : List SItem)
      (h1 : s.bPc = .recv) (h2 : s.serverIn = .msg f :: rest) :
      Step s { s with bPc := .send f, serverIn := rest }
  | bRecvErr (s : RelayState) (rest : List SItem)
      (h1 : s.bPc = .recv) (h2 : s.serverIn = .errItem :: rest) :
      Step s { s with bPc := .clearing, serverIn := rest }
  | bRecvEnd (s : RelayState)
      (h1 : s.bPc = .recv) (h2 : s.serverIn = []) (h3 : s.serverClosed = true) :
      Step s { s with bPc := .clearing }
  | bSendOk (s : RelayState) (f : Nat)
      (h1 : s.bPc = .send f) (h2 : s.bFail.headD false = false) :
      Step s { s with bPc := .check, clientOut := s.clientOut ++ [f],
                      bFail := s.bFail.tail }
  | bSendErr (s : RelayState) (f : Nat)
      (h1 : s.bPc = .send f) (h2 : s.bFail.headD false = true) :
      Step s { s with bPc := .clearing, bFail := s.bFail.tail }
  | bCheckLive (s : RelayState)
      (h1 : s.bPc = .check) (h2 : s.flag = true) :
      Step s { s with bPc := .recv }
  | bCheckStop (s : RelayState)
      (h1 : s.bPc = .check) (h2 : s.flag = false) :
      Step s { s with bPc := .clearing }
  | bClear (s : RelayState)
      (h1 : s.bPc = .clearing) :
      Step s { s with bPc := .done, flag := false }

/-- How many frames a pump at the given program point can still forward
once the shared flag is `false`: one if it is still to receive or to
send (the flag is only read after a completed forward), none once it has
reached the check or left the loop. -/
def pumpBudget : PumpPc → Nat
  | .recv => 1
  | .send _ => 1
  | .check => 0
  | .clearing => 0
  | .done => 0

/-- Result of the `on_upgrade` callback body up to the spawning of the
two pumps (lines 164-212).  `connect_async(..).await.unwrap()` on
line 168 panics the session task when the upstream connection fails;
`failed` is the error outcome the specification expects there, which the
source never produces. -/
inductive SessionStart
  | panicked (site : String)
  | failed (message : String) (status : Nat)
  | relaying (s : RelayState)
deriving DecidableEq

/-- Embedding of the relay session start: the upstream connection
attempt (line 168) decides between a panic (`unwrap` of an `Err`) and a
running relay with the shared flag initialized to `true`. -/
def wsSession (connectResult : Except String Unit)
    (clientIn : List SItem) (clientClosed : Bool)
    (serverIn : List SItem) (serverClosed : Bool)
    (aFail bFail : List Bool) : SessionStart :=
  match connectResult with
  | .error _ => .panicked "connect_async unwrap"
  | .ok _ => .relaying (relayInit clientIn clientClosed serverIn serverClosed aFail bFail)

/-- A reachable session state in which the upstream→client pump has
terminated and cleared the shared flag, while the client→upstream pump
is blocked in `clientstream.next().await` with no further client frame
ever arriving: no step is enabled, so that pump never observes the
cleared flag and never exits. -/
def stuckState : RelayState :=
  { flag := false, aPc := .recv, bPc := .done,
    clientIn := [], clientClosed := false,
    serverIn := [], serverClosed := true,
    aFail := [], bFail := [], serverOut := [], clientOut := [] }

/-- Start of the trace refuting the no-forward-after-clear claim: the
client stream holds one frame, the upstream stream is already at its
end. -/
def cexS0 : RelayState := relayInit [.msg 7] false [] true [] []

/-- After the upstream→client pump observes its stream end. -/
def cexS1 : RelayState := { cexS0 with bPc := .clearing }

/-- After that pump clears the shared flag and terminates. -/
def cexS2 : RelayState := { cexS1 with bPc := .done, flag := false }

/-- After the client→upstream pump receives the pending frame — the
shared flag is already `false`. -/
def cexS3 : RelayState := { cexS2 with aPc := .send 7, clientIn := [] }

/-- After it forwards that frame to the upstream sink. -/
def cexS4 : RelayState :=
  { cexS3 with
      aPc := .check
      serverOut := cexS3.serverOut ++ [7]
      aFail := cexS3.aFail.tail }

/-- A config with both secure flags raised (constructible inside the
crate by a struct literal), for exercising the scheme claims. -/
def cfgWebOn : ProxyConfig :=
  { proxy_target := "http://localhost:3000", web_secure := true,
    ws_secure := false, support_nesting := false }

/-- The config of the claim's own example: `web_secure = false`,
`ws_secure = true`. -/
def cfgWsOn : ProxyConfig :=
  { proxy_target := "http://localhost:3000", web_secure := false,
    ws_secure := true, support_nesting := false }

/-- A plain (non-upgrade) GET request to `/page`. -/
def demoPlainReq : InboundRequest :=
  { isUpgrade := false, uriStr := "/page", headers := [("Host", "proxy.local")] }

/-- An upgrade (websocket) request. -/
def demoUpgradeReq : InboundRequest :=
  { isUpgrade := true, uriStr := "/chat", headers := [] }

/-- A plain request with a nested path and a query. -/
def demoNestReq : InboundRequest :=
  { isUpgrade := false, uriStr := "/a/b?x=1", headers := [] }

/-- A world whose upstream refuses the connection (no status on the
error). -/
def demoWorldErr : World :=
  { bodyBytes := some [1, 2],
    answer := fun _ => .error { message := "connection refused", statusCode := none } }

/-- A world whose upstream answers 200 with a header list containing a
duplicate key and the body bytes of `"ok"`. -/
def demoWorldOk : World :=
  { bodyBytes := some [1, 2],
    answer := fun _ => .ok
      { status := 200, version := 11,
        headers := [("X-Test", "1"), ("A", "x"), ("A", "y")],
        bodyRead := some [111, 107] } }

/-- A world in which reading the inbound request body fails. -/
def demoWorldNoBody : World :=
  { bodyBytes := none,
    answer := fun _ => .error { message := "unused", statusCode := none } }

/-- A world whose upstream answers but whose response body read fails. -/
def demoWorldBadResp : World :=
  { bodyBytes := some [],
    answer := fun _ => .ok
      { status := 200, version := 11, headers := [], bodyRead := none } }

/-- A session state whose client→upstream pump sits at the liveness
check with the flag still `true`. -/
def checkStateLive : RelayState :=
  { relayInit [] false [] false [] [] with aPc := .check }

/-!  Helper lemmas about the relay step system.  -/

lemma step_flag_mono (s s' : RelayState) (h : Step s s') (hf : s.flag = false) :
    s'.flag = false := by
  cases h <;> first | rfl | exact hf

lemma reach_flag_mono (s s' : RelayState)
    (h : Relation.ReflTransGen Step s s') (hf : s.flag = false) :
    s'.flag = false := by
  induction h with
  | refl => exact hf
  | tail _ hstep ih => exact step_flag_mono _ _ hstep ih

lemma pumpBudget_le_one (pc : PumpPc) : pumpBudget pc ≤ 1 := by
  cases pc <;> simp [pumpBudget]

lemma step_aOut_budget (s s' : RelayState) (h : Step s s') (hf : s.flag = false) :
    s'.serverOut.length + pumpBudget s'.aPc ≤ s.serverOut.length + pumpBudget s.aPc := by
  cases h <;> simp_all [pumpBudget]

lemma step_bOut_budget (s s' : RelayState) (h : Step s s') (hf : s.flag = false) :
    s'.clientOut.length + pumpBudget s'.bPc ≤ s.clientOut.length + pumpBudget s.bPc := by
  cases h <;> simp_all [pumpBudget]

lemma reach_out_budget (s s' : RelayState)
    (h : Relation.ReflTransGen Step s s') (hf : s.flag = false) :
    s'.serverOut.length + pumpBudget s'.aPc ≤ s.serverOut.length + pumpBudget s.aPc ∧
    s'.clientOut.length + pumpBudget s'.bPc ≤ s.clientOut.length + pumpBudget s.bPc := by
  induction h with
  | refl => exact ⟨le_refl _, le_refl _⟩
  | tail hr hstep ih =>
      have hfb := reach_flag_mono _ _ hr hf
      obtain ⟨ha, hb⟩ := ih
      exact ⟨le_trans (step_aOut_budget _ _ hstep hfb) ha,
             le_trans (step_bOut_budget _ _ hstep hfb) hb⟩

/-!  Helper lemmas about the keyed header map.  -/

lemma lookupH_insertH (m : List (String × String)) (k0 v0 k : String) :
    lookupH k (insertH m k0 v0) = if k0 = k then some v0 else lookupH k m := by
  induction m with
  | nil => simp [insertH, lookupH]
  | cons p rest ih =>
      simp only [insertH]
      by_cases h1 : p.1 = k0
      · simp only [if_pos h1, ih]
        by_cases h2 : k0 = k
        · simp only [if_pos h2]
        · have hpk : ¬ p.1 = k := by rw [h1]; exact h2
          simp only [if_neg h2, lookupH, if_neg hpk]
      · simp only [if_neg h1, lookupH]
        by_cases h3 : p.1 = k
        · have hk : ¬ k0 = k := fun hh => h1 (h3.trans hh.symm)
          simp only [if_pos h3, if_neg hk, lookupH]
        · simp only [if_neg h3, ih, lookupH]

lemma lookupH_foldl_insertH (hs : List (String × String))
    (acc : List (String × String)) (k : String) :
    lookupH k (hs.foldl (fun m p => insertH m p.1 p.2) acc) =
      hs.foldl (fun a p => if p.1 = k then some p.2 else a) (lookupH k acc) := by
  induction hs generalizing acc with
  | nil => rfl
  | cons p t ih =>
      simp only [List.foldl_cons, ih, lookupH_insertH]

lemma lookupH_buildHeaders (hs : List (String × String)) (k : String) :
    lookupH k (buildHeaders hs) = lastVal k hs := by
  simpa [buildHeaders, lastVal, lookupH] using lookupH_foldl_insertH hs [] k

/-!  Claim theorems.  -/

/-- Claim C1.  The claim states that the upstream scheme is a pure
function of the two secure flags (`https` iff `web_secure`, `wss` iff
`ws_secure`).  The code never reads those flags: the websocket target is
a textual `https→wss`, `http→ws` rewrite of the `target` string
(line 154), and the plain-HTTP URI is `target + req.uri()` verbatim
(line 221).  Evaluated at the failing input: with `ws_secure = true` the
websocket exchange still uses scheme `ws`, and with `web_secure = true`
the HTTP exchange still uses scheme `http` — contradicting the field
documentation of `ProxyConfig` (lines 31-35). -/
theorem C1_scheme_not_from_flags :
    (proxy demoUpgradeReq [] "http://localhost:3000" cfgWsOn .GET demoWorldErr).outcome
      = .upgrade "ws://localhost:3000" [] ∧
    (proxy demoPlainReq [] "http://localhost:3000" cfgWebOn .GET demoWorldErr).upstreamCalls.map
        (fun c => c.uri) = ["http://localhost:3000/page"] := by
  exact ⟨rfl, rfl⟩

/-- Claim C2.  The claim states that with `support_nesting = false` the
inbound path+query is ignored and the bare target used.  The code never
reads `support_nesting`: for a plain HTTP exchange the inbound path and
query are always appended (line 221), and toggling the flag changes
nothing — contradicting the documentation of `disable_nesting`
(lines 118-123). -/
theorem C2_nesting_ignored :
    (proxy demoNestReq [] "http://api.example.com"
        (ProxyConfig.new "http://api.example.com") .GET demoWorldErr).upstreamCalls.map
        (fun c => c.uri) = ["http://api.example.com/a/b?x=1"] ∧
    proxy demoNestReq [] "http://api.example.com"
        ((ProxyConfig.new "http://api.example.com").enable_nesting) .GET demoWorldErr
      = proxy demoNestReq [] "http://api.example.com"
          (ProxyConfig.new "http://api.example.com") .GET demoWorldErr := by
  exact ⟨rfl, rfl⟩

/-- Claim C3, counterexample.  The claim states that a failed upstream
websocket connection is recovered locally as an `UpstreamUnreachable`
failure.  In the code, `connect_async(..).await.unwrap()` (line 168)
panics the session task instead: at the concrete failing connection the
session start is a panic, not a failure outcome. -/
theorem C3_counterexample :
    wsSession (.error "connection refused") [] true [] true [] []
        = .panicked "connect_async unwrap" ∧
    wsSession (.error "connection refused") [] true [] true [] []
        ≠ .failed "UpstreamUnreachable" 502 := by
  exact ⟨rfl, by decide⟩

/-- Claim C3, amended.  The client-facing upgrade response is returned
unconditionally before the upstream connection is attempted; but no
fallible I/O in the handler is recovered locally: a failed upstream
websocket connection (line 168), a failed inbound body read
(lines 230/237) and a failed upstream response body read (line 257) each
panic via `unwrap` instead of producing an error outcome. -/
theorem C3_amended :
    (∀ (req : InboundRequest) (hd : List (String × String)) (t : String)
        (cfg : ProxyConfig) (m : Method) (w : World), req.isUpgrade = true →
        (proxy req hd t cfg m w).outcome = .upgrade (wsTarget t) hd) ∧
    (∀ (e : String) (ci : List SItem) (cc : Bool) (si : List SItem) (sc : Bool)
        (af bf : List Bool),
        wsSession (.error e) ci cc si sc af bf = .panicked "connect_async unwrap") ∧
    (∀ (req : InboundRequest) (hd : List (String × String)) (t : String)
        (cfg : ProxyConfig) (m : Method) (w : World), req.isUpgrade = false →
        (m = .GET ∨ m = .POST) → w.bodyBytes = none →
        (proxy req hd t cfg m w).outcome = .panicked "body.into_bytes unwrap") ∧
    (∀ (req : InboundRequest) (hd : List (String × String)) (t : String)
        (cfg : ProxyConfig) (m : Method) (w : World) (bs : List Nat) (r : UpstreamResp),
        req.isUpgrade = false → (m = .GET ∨ m = .POST) → w.bodyBytes = some bs →
        w.answer { method := m, uri := t ++ req.uriStr,
                   headers := req.headers, body := bs } = .ok r →
        r.bodyRead = none →
        (proxy req hd t cfg m w).outcome = .panicked "result.bytes unwrap") := by
  refine ⟨?_, ?_, ?_, ?_⟩
  · intro req hd t cfg m w h
    simp [proxy, h]
  · intro e ci cc si sc af bf
    rfl
  · intro req hd t cfg m w hup hm hb
    rcases hm with rfl | rfl <;> simp [proxy, hup, hb]
  · intro req hd t cfg m w bs r hup hm hb hr hrb
    rcases hm with rfl | rfl <;> simp [proxy, hup, hb, hr, hrb]

/-- Claim C3, witness for the amended theorem at concrete inputs. -/
theorem C3_amended_witness :
    (proxy demoUpgradeReq [] "http://localhost:3000" ProxyConfig.default .GET demoWorldErr).outcome
      = .upgrade (wsTarget "http://localhost:3000") [] ∧
    wsSession (.error "refused") [] true [] true [] [] = .panicked "connect_async unwrap" ∧
    (proxy demoPlainReq [] "http://localhost:3000" ProxyConfig.default .GET demoWorldNoBody).outcome
      = .panicked "body.into_bytes unwrap" ∧
    (proxy demoPlainReq [] "http://localhost:3000" ProxyConfig.default .GET demoWorldBadResp).outcome
      = .panicked "result.bytes unwrap" :=
  ⟨C3_amended.1 demoUpgradeReq [] "http://localhost:3000" ProxyConfig.default .GET demoWorldErr rfl,
   C3_amended.2.1 "refused" [] true [] true [] [],
   C3_amended.2.2.1 demoPlainReq [] "http://localhost:3000" ProxyConfig.default .GET
     demoWorldNoBody rfl (Or.inl rfl) rfl,
   C3_amended.2.2.2 demoPlainReq [] "http://localhost:3000" ProxyConfig.default .GET
     demoWorldBadResp []
     { status := 200, version := 11, headers := [], bodyRead := none }
     rfl (Or.inl rfl) rfl rfl rfl⟩

/-- Claim C4, counterexample.  The claim states that no frame is ever
forwarded by a pump after its liveness flag has been cleared by the
peer.  In the code each pump reads the flag only after a received frame
has already been forwarded (lines 181-188), so in the concrete trace
below the upstream→client pump observes its stream end and clears the
shared flag, after which the client→upstream pump still receives and
forwards one frame while the flag is already `false`. -/
theorem C4_counterexample :
    Relation.ReflTransGen Step cexS0 cexS3 ∧
    cexS3.flag = false ∧ cexS3.serverOut = [] ∧
    Step cexS3 cexS4 ∧ cexS4.serverOut = [7] := by
  refine ⟨?_, rfl, rfl, ?_, rfl⟩
  · exact Relation.ReflTransGen.tail
      (Relation.ReflTransGen.tail
        (Relation.ReflTransGen.tail Relation.ReflTransGen.refl
          (Step.bRecvEnd cexS0 rfl rfl rfl))
        (Step.bClear cexS1 rfl))
      (Step.aRecvMsg cexS2 7 [] rfl rfl)
  · exact Step.aSendOk cexS3 7 rfl rfl

/-- Claim C4, amended.  Each exiting pump does clear the shared flag in
the step that terminates it; once the flag is `false`, each pump
forwards at most one further frame (the flag is only read after a
completed forward); and a pump blocked in its receive never observes the
cleared flag, so the session need not terminate — witnessed by the
reachable `stuckState`, from which no step at all is enabled although
the client→upstream pump has not exited. -/
theorem C4_amended :
    (∀ s s' : RelayState, Step s s' → s.aPc ≠ PumpPc.done → s'.aPc = PumpPc.done →
        s'.flag = false) ∧
    (∀ s s' : RelayState, Step s s' → s.bPc ≠ PumpPc.done → s'.bPc = PumpPc.done →
        s'.flag = false) ∧
    (∀ s s' : RelayState, Relation.ReflTransGen Step s s' → s.flag = false →
        s'.serverOut.length ≤ s.serverOut.length + 1 ∧
        s'.clientOut.length ≤ s.clientOut.length + 1) ∧
    Relation.ReflTransGen Step (relayInit [] false [] true [] []) stuckState ∧
    (∀ s' : RelayState, ¬ Step stuckState s') := by
  refine ⟨?_, ?_, ?_, ?_, ?_⟩
  · intro s s' h hne hdone
    cases h <;> simp_all
  · intro s s' h hne hdone
    cases h <;> simp_all
  · intro s s' h hf
    obtain ⟨ha, hb⟩ := reach_out_budget s s' h hf
    have b1 := pumpBudget_le_one s.aPc
    have b2 := pumpBudget_le_one s.bPc
    have b3 := pumpBudget_le_one s'.aPc
    have b4 := pumpBudget_le_one s'.bPc
    constructor <;> omega
  · exact Relation.ReflTransGen.tail
      (Relation.ReflTransGen.tail Relation.ReflTransGen.refl
        (Step.bRecvEnd (relayInit [] false [] true [] []) rfl rfl rfl))
      (Step.bClear { relayInit [] false [] true [] [] with bPc := .clearing } rfl)
  · intro s' h
    cases h <;> simp_all [stuckState]

/-- Claim C4, witness for the amended theorem at concrete inputs. -/
theorem C4_amended_witness :
    cexS2.flag = false ∧
    stuckState.serverOut.length ≤ stuckState.serverOut.length + 1 ∧
    ¬ Step stuckState stuckState := by
  refine ⟨?_, ?_, ?_⟩
  · exact C4_amended.2.1 cexS1 cexS2 (Step.bClear cexS1 rfl) (by decide) rfl
  · exact (C4_amended.2.2.1 stuckState stuckState Relation.ReflTransGen.refl rfl).1
  · exact C4_amended.2.2.2.2 stuckState

/-- Claim C5.  A non-upgrade request whose method is neither `GET` nor
`POST` hits the catch-all arm (lines 241-243): the handler fails with
the `Unsupported Method!` error at status 405, issues no upstream call,
and never reaches the relay path. -/
theorem C5_unsupported_method (req : InboundRequest) (hd : List (String × String))
    (t : String) (cfg : ProxyConfig) (name : String) (w : World)
    (hup : req.isUpgrade = false) :
    proxy req hd t cfg (.other name) w =
      { outcome := .error "Unsupported Method!" 405,
        upstreamCalls := [], relayAttempted := false } := by
  simp [proxy, hup]

/-- Claim C5, witness: a `PUT` to the dispatch gate on a non-upgrade
request. -/
theorem C5_witness :
    proxy demoPlainReq [] "http://localhost:3000" ProxyConfig.default
        (.other "PUT") demoWorldErr =
      { outcome := .error "Unsupported Method!" 405,
        upstreamCalls := [], relayAttempted := false } :=
  C5_unsupported_method demoPlainReq [] "http://localhost:3000" ProxyConfig.default
    "PUT" demoWorldErr rfl

/-- Claim C6.  When the upstream call fails, the handler fails with the
error's own message at the error's own status code when it carries one,
and at 502 Bad Gateway otherwise (`error.status().unwrap_or(BAD_GATEWAY)`,
line 263), having issued exactly the one upstream call. -/
theorem C6_upstream_error_mapping (req : InboundRequest) (hd : List (String × String))
    (t : String) (cfg : ProxyConfig) (m : Method) (w : World)
    (bs : List Nat) (e : UpstreamErr)
    (hup : req.isUpgrade = false) (hm : m = .GET ∨ m = .POST)
    (hb : w.bodyBytes = some bs)
    (he : w.answer { method := m, uri := t ++ req.uriStr,
                     headers := req.headers, body := bs } = .error e) :
    (proxy req hd t cfg m w).outcome = .error e.message (e.statusCode.getD 502) ∧
    (proxy req hd t cfg m w).upstreamCalls =
      [{ method := m, uri := t ++ req.uriStr, headers := req.headers, body := bs }] := by
  rcases hm with rfl | rfl <;> simp [proxy, hup, hb, he]

/-- Claim C6, witness: connection refused with no carried status maps to
502. -/
theorem C6_witness :
    (proxy demoPlainReq [] "http://localhost:3000" ProxyConfig.default .GET demoWorldErr).outcome
      = .error "connection refused" 502 ∧
    (proxy demoPlainReq [] "http://localhost:3000" ProxyConfig.default .GET demoWorldErr).upstreamCalls
      = [{ method := .GET, uri := "http://localhost:3000/page",
           headers := demoPlainReq.headers, body := [1, 2] }] :=
  C6_upstream_error_mapping demoPlainReq [] "http://localhost:3000" ProxyConfig.default
    .GET demoWorldErr [1, 2] { message := "connection refused", statusCode := none }
    rfl (Or.inl rfl) rfl rfl

/-- Claim C7.  On a successful upstream call the outbound response
carries the upstream status, the upstream version, the fully buffered
upstream body, and every upstream header keyed with later duplicates
overwriting earlier ones: looking any key up in the built header map
yields the value of the last upstream pair with that key. -/
theorem C7_success_forwarding (req : InboundRequest) (hd : List (String × String))
    (t : String) (cfg : ProxyConfig) (m : Method) (w : World)
    (bs : List Nat) (r : UpstreamResp) (rb : List Nat)
    (hup : req.isUpgrade = false) (hm : m = .GET ∨ m = .POST)
    (hb : w.bodyBytes = some bs)
    (hr : w.answer { method := m, uri := t ++ req.uriStr,
                     headers := req.headers, body := bs } = .ok r)
    (hrb : r.bodyRead = some rb) :
    (proxy req hd t cfg m w).outcome =
      .response { status := r.status, version := r.version,
                  headers := buildHeaders r.headers, body := rb } ∧
    ∀ k, lookupH k (buildHeaders r.headers) = lastVal k r.headers := by
  refine ⟨?_, fun k => lookupH_buildHeaders r.headers k⟩
  rcases hm with rfl | rfl <;> simp [proxy, hup, hb, hr, hrb]

/-- Claim C7, witness: echo upstream with status 200, a duplicate header
key, and body `"ok"`; the duplicate's later value wins. -/
theorem C7_witness :
    (proxy demoPlainReq [] "http://localhost:3000" ProxyConfig.default .GET demoWorldOk).outcome =
      .response { status := 200, version := 11,
                  headers := buildHeaders [("X-Test", "1"), ("A", "x"), ("A", "y")],
                  body := [111, 107] } ∧
    lookupH "A" (buildHeaders [("X-Test", "1"), ("A", "x"), ("A", "y")]) = some "y" := by
  have h := C7_success_forwarding demoPlainReq [] "http://localhost:3000" ProxyConfig.default
    .GET demoWorldOk [1, 2]
    { status := 200, version := 11,
      headers := [("X-Test", "1"), ("A", "x"), ("A", "y")], bodyRead := some [111, 107] }
    [111, 107] rfl (Or.inl rfl) rfl rfl rfl
  exact ⟨h.1, (h.2 "A").trans (by decide)⟩

/-- Claim C8, counterexample.  The claim states the target field never
embeds a scheme, including the default construction; but
`ProxyConfig::default` sets the target to `"http://localhost:3000"`,
whose first seven characters are the scheme prefix `http://`. -/
theorem C8_counterexample :
    ProxyConfig.default.proxy_target = "http://localhost:3000" ∧
    ProxyConfig.default.proxy_target.data.take 7 = "http://".data := by
  exact ⟨rfl, rfl⟩

/-- Claim C8, amended.  The target field holds whatever string was
supplied (the default embeds the scheme `http://`); construction and all
six builder methods leave it unchanged; and the upstream URI scheme is
never derived from the two secure flags — the handler's result is
invariant under both of them, the scheme coming from the target string's
own text. -/
theorem C8_amended :
    ProxyConfig.default.proxy_target = "http://localhost:3000" ∧
    (∀ t : String, (ProxyConfig.new t).proxy_target = t) ∧
    (∀ c : ProxyConfig,
        c.ws_secure_builder.proxy_target = c.proxy_target ∧
        c.ws_insecure.proxy_target = c.proxy_target ∧
        c.web_secure_builder.proxy_target = c.proxy_target ∧
        c.web_insecure.proxy_target = c.proxy_target ∧
        c.enable_nesting.proxy_target = c.proxy_target ∧
        c.disable_nesting.proxy_target = c.proxy_target) ∧
    (∀ (req : InboundRequest) (hd : List (String × String)) (t : String)
        (m : Method) (w : World) (c : ProxyConfig) (w1 s1 : Bool),
        proxy req hd t { c with web_secure := w1, ws_secure := s1 } m w
          = proxy req hd t c m w) := by
  exact ⟨rfl, fun _ => rfl, fun _ => ⟨rfl, rfl, rfl, rfl, rfl, rfl⟩,
         fun _ _ _ _ _ _ _ _ => rfl⟩

/-- Claim C9.  The `config` argument of the handler is never read: for a
fixed request, headers, target, method and external world, any two
`ProxyConfig` values produce the same outcome, the same upstream calls
and the same relay decision. -/
theorem C9_config_independent (req : InboundRequest) (hd : List (String × String))
    (t : String) (m : Method) (w : World) (c1 c2 : ProxyConfig) :
    proxy req hd t c1 m w = proxy req hd t c2 m w :=
  rfl

/-- Claim C10.  The relay's liveness flag is a single shared cell
(`server_live` is `client_live.clone()` of the same `Arc`, lines
172-173, embedded as the one `flag` field both pumps read and write): it
is initialized to `true` at session start, no step ever sets it back to
`true`, and once `false` it stays `false` for the remainder of the
session. -/
theorem C10_single_shared_flag :
    (∀ (ci : List SItem) (cc : Bool) (si : List SItem) (sc : Bool) (af bf : List Bool),
        (relayInit ci cc si sc af bf).flag = true) ∧
    (∀ s s' : RelayState, Step s s' → s'.flag = true → s.flag = true) ∧
    (∀ s s' : RelayState, Relation.ReflTransGen Step s s' → s.flag = false →
        s'.flag = false) := by
  refine ⟨fun _ _ _ _ _ _ => rfl, ?_, ?_⟩
  · intro s s' h hf
    cases h <;> simp_all
  · intro s s' h hf
    exact reach_flag_mono s s' h hf

/-- Claim C10, witness at concrete states: a flag-preserving step and a
reflexive trace from a cleared-flag state. -/
theorem C10_witness :
    (relayInit [] false [] false [] []).flag = true ∧
    checkStateLive.flag = true ∧
    stuckState.flag = false := by
  refine ⟨?_, ?_, ?_⟩
  · exact C10_single_shared_flag.1 [] false [] false [] []
  · exact C10_single_shared_flag.2.1 checkStateLive
      { checkStateLive with aPc := .recv }
      (Step.aCheckLive checkStateLive rfl rfl) rfl
  · exact C10_single_shared_flag.2.2 stuckState stuckState
      Relation.ReflTransGen.refl rfl

end PoemProxy
